import Mathlib

/-!
Verification of the adaptive synchronization and scheduling engine of the
missing-persons data pipeline.  Each section shallowly embeds one source
module, and the theorems at the end of the file settle the specification
claims about them:

* `Py`     — a small model of the Python values the modules manipulate
* `Sched`  — `data_pipeline/utils/intelligent_scheduler.py`
* `Inc`    — `data_pipeline/utils/incremental_updater.py`
* `Valid`  — `data_pipeline/processors/validation.py`
* `Mon`    — `data_pipeline/utils/monitoring_alerting.py`

Python floats are modelled as rationals (`ℚ`), wall-clock instants as
integer minutes (or an order-preserving integer encoding of datetimes),
and Python dictionaries as association lists.  Fallible Python code
(code that can raise) is modelled with `Except String`.
-/

namespace Py

/-- A Python value as stored in the record dictionaries: a string, an
int, a float (modelled as `ℚ`), or `None`. -/
inductive Value
  | str (s : String)
  | intv (n : ℤ)
  | ratv (q : ℚ)
  | none
deriving DecidableEq, Repr

/-- A Python `Dict[str, Any]` record, as an association list.  Records
coming from Python dictionaries have pairwise distinct keys; lookups
take the first binding. -/
abbrev Record := List (String × Value)

/-- `record.get(k)`: `None` both when the key is missing and when the
stored value is `None`. -/
def pyGet (r : Record) (k : String) : Value := (r.lookup k).getD .none

/-- `record.get(k, d)`: the stored value when the key is present (even
if that value is `None`), otherwise the default `d`. -/
def pyGetD (r : Record) (k : String) (d : Value) : Value := (r.lookup k).getD d

/-- Python `str(v)`.  Floats are rendered through `ℚ`'s `toString`; the
exact float formatting is irrelevant to every claim proved below. -/
def pyStr : Value → String
  | .str s => s
  | .intv n => toString n
  | .ratv q => toString q
  | .none => "None"

/-- Python truthiness of a value. -/
def truthy : Value → Bool
  | .str s => s ≠ ""
  | .intv n => n ≠ 0
  | .ratv q => q ≠ 0
  | .none => false

/-- Python `str.lower()` (character-wise, via `Char.toLower`). -/
def lowerStr (s : String) : String := String.mk (s.data.map Char.toLower)

/-- Python `str.upper()` (character-wise, via `Char.toUpper`). -/
def upperStr (s : String) : String := String.mk (s.data.map Char.toUpper)

/-- Python `str.strip()`: drop whitespace from both ends. -/
def trimChars (cs : List Char) : List Char :=
  ((cs.dropWhile Char.isWhitespace).reverse.dropWhile Char.isWhitespace).reverse

/-- Python `str.strip()` on strings. -/
def stripStr (s : String) : String := String.mk (trimChars s.data)

/-- Does the character list start with the given pattern? -/
def charsStartWith : List Char → List Char → Bool
  | _, [] => true
  | [], _ :: _ => false
  | a :: as, b :: bs => a == b && charsStartWith as bs

/-- Python `sub in s` on character lists: some suffix starts with `sub`. -/
def charsContain : List Char → List Char → Bool
  | [], sub => sub.isEmpty
  | c :: t, sub => charsStartWith (c :: t) sub || charsContain t sub

/-- Python `sub in s` for strings. -/
def strContain (s sub : String) : Bool := charsContain s.data sub.data

/-- Python `int(q)` on a float: truncation toward zero. -/
def pyTrunc (q : ℚ) : ℤ := if q < 0 then -Int.floor (-q) else Int.floor q

/-- Parse a non-empty list of decimal digits. -/
def parseDigits (cs : List Char) : Option ℕ :=
  if cs.isEmpty then Option.none
  else cs.foldl (fun acc c =>
    acc.bind (fun n => if c.isDigit then some (n * 10 + (c.toNat - 48)) else Option.none))
    (some 0)

/-- Python `int(s)` on a string: strip, optional sign, decimal digits;
`none` when the string is not an integer literal (`ValueError`). -/
def pyParseInt (s : String) : Option ℤ :=
  match (stripStr s).data with
  | '+' :: rest => (parseDigits rest).map (fun n => (n : ℤ))
  | '-' :: rest => (parseDigits rest).map (fun n => -(n : ℤ))
  | rest => (parseDigits rest).map (fun n => (n : ℤ))

/-- Python `int(v)`: `none` models the `ValueError`/`TypeError` cases. -/
def pyInt : Value → Option ℤ
  | .intv n => some n
  | .ratv q => some (pyTrunc q)
  | .str s => pyParseInt s
  | .none => Option.none

/-- Split a character list at the first dot. -/
def splitAtDot : List Char → List Char × Option (List Char)
  | [] => ([], Option.none)
  | '.' :: rest => ([], some rest)
  | c :: rest =>
    let p := splitAtDot rest
    (c :: p.1, p.2)

/-- Parse an unsigned decimal float literal (`"12"`, `"12.5"`, `".5"`, `"12."`). -/
def parseUnsignedFloat (cs : List Char) : Option ℚ :=
  let p := splitAtDot cs
  match p.2 with
  | Option.none => (parseDigits p.1).map (fun n => (n : ℚ))
  | some frac =>
    if p.1.isEmpty && frac.isEmpty then Option.none
    else
      let ip : Option ℕ := if p.1.isEmpty then some 0 else parseDigits p.1
      let fp : Option ℕ := if frac.isEmpty then some 0 else parseDigits frac
      match ip, fp with
      | some n, some f => some ((n : ℚ) + (f : ℚ) / ((10 : ℚ) ^ frac.length))
      | _, _ => Option.none

/-- Python `float(s)` on a string: strip, optional sign, decimal literal. -/
def pyParseFloat (s : String) : Option ℚ :=
  match (stripStr s).data with
  | '+' :: rest => parseUnsignedFloat rest
  | '-' :: rest => (parseUnsignedFloat rest).map (fun q => -q)
  | rest => parseUnsignedFloat rest

/-- Python `float(v)`: `none` models the `ValueError`/`TypeError` cases. -/
def pyFloat : Value → Option ℚ
  | .intv n => some ((n : ℚ))
  | .ratv q => some q
  | .str s => pyParseFloat s
  | .none => Option.none

/-- One step of Python `str.title()`: an alphabetic character is
upper-cased after a non-alphabetic position and lower-cased otherwise. -/
def titleChars : List Char → Bool → List Char
  | [], _ => []
  | c :: rest, prevAlpha =>
    (if c.isAlpha then (if prevAlpha then c.toLower else c.toUpper) else c) ::
      titleChars rest c.isAlpha

/-- Python `str.title()`. -/
def pyTitle (s : String) : String := String.mk (titleChars s.data false)

/-- Insert a key/value pair into a key-sorted association list. -/
def insertByKey (kv : String × Value) : List (String × Value) → List (String × Value)
  | [] => [kv]
  | x :: xs => if kv.1 < x.1 then kv :: x :: xs else x :: insertByKey kv xs

/-- Sort an association list by key (`json.dumps(..., sort_keys=True)`). -/
def sortByKey : List (String × Value) → List (String × Value)
  | [] => []
  | x :: xs => insertByKey x (sortByKey xs)

/-- An order-preserving integer encoding of a Gregorian datetime,
used to model comparisons between `datetime` values. -/
def encodeDatetime (y mo da hh mi ss : ℕ) : ℤ :=
  ((((((y : ℤ) * 13 + mo) * 32 + da) * 24 + hh) * 60 + mi) * 60 + ss)

/-- Python `datetime.fromisoformat`: accepts `YYYY-MM-DD`, optionally
followed by a space or `T` and `HH:MM` or `HH:MM:SS`; `none` models the
`ValueError` on any other shape. -/
def pyFromIso (s : String) : Option ℤ :=
  match s.data with
  | [a, b, c, d, '-', e, f, '-', g, h] => do
    let y ← parseDigits [a, b, c, d]
    let mo ← parseDigits [e, f]
    let da ← parseDigits [g, h]
    pure (encodeDatetime y mo da 0 0 0)
  | [a, b, c, d, '-', e, f, '-', g, h, sep, i, j, ':', k, l] =>
    if sep = ' ' || sep = 'T' then do
      let y ← parseDigits [a, b, c, d]
      let mo ← parseDigits [e, f]
      let da ← parseDigits [g, h]
      let hh ← parseDigits [i, j]
      let mi ← parseDigits [k, l]
      pure (encodeDatetime y mo da hh mi 0)
    else Option.none
  | [a, b, c, d, '-', e, f, '-', g, h, sep, i, j, ':', k, l, ':', m, n] =>
    if sep = ' ' || sep = 'T' then do
      let y ← parseDigits [a, b, c, d]
      let mo ← parseDigits [e, f]
      let da ← parseDigits [g, h]
      let hh ← parseDigits [i, j]
      let mi ← parseDigits [k, l]
      let ss ← parseDigits [m, n]
      pure (encodeDatetime y mo da hh mi ss)
    else Option.none
  | _ => Option.none

end Py

namespace Sched

/-- The `UpdateFrequency` enumeration of `intelligent_scheduler.py`. -/
inductive UpdateFrequency
  | critical
  | high
  | normal
  | low
  | minimal
deriving DecidableEq, Repr

/-- The `ActivityPattern` enumeration of `intelligent_scheduler.py`.
Its members are exactly BURST, STEADY, PERIODIC, SPORADIC and DORMANT. -/
inductive ActivityPattern
  | burst
  | steady
  | periodic
  | sporadic
  | dormant
deriving DecidableEq, Repr

/-- Python attribute lookup `ActivityPattern.<NAME>`: the enumeration
has exactly five members; any other attribute name raises
`AttributeError` at the reference site, which we model by `none`. -/
def ActivityPattern.member : String → Option ActivityPattern
  | "BURST" => some .burst
  | "STEADY" => some .steady
  | "PERIODIC" => some .periodic
  | "SPORADIC" => some .sporadic
  | "DORMANT" => some .dormant
  | _ => Option.none

/-- The `SourceMetrics` dataclass.  `last_significant_update` is an
integer timestamp in minutes. -/
structure SourceMetrics where
  source_name : String
  avg_records_per_hour : ℚ
  change_rate : ℚ
  error_rate : ℚ
  response_time_avg : ℚ
  activity_pattern : ActivityPattern
  peak_hours : List ℕ
  last_significant_update : ℤ
  urgency_score : ℚ

/-- The `ScheduleRecommendation` dataclass.  `next_update_time` is an
integer timestamp in minutes; `adaptive_factors` is the factor dict. -/
structure ScheduleRecommendation where
  source_name : String
  update_frequency : UpdateFrequency
  interval_minutes : ℤ
  next_update_time : ℤ
  reason : String
  confidence : ℚ
  adaptive_factors : List (String × ℚ)
deriving DecidableEq, Repr

/-- `schedule_config['frequency_intervals']`: the (min, max) interval in
minutes for each frequency level. -/
def frequency_intervals : UpdateFrequency → ℚ × ℚ
  | .critical => (5, 15)
  | .high => (30, 60)
  | .normal => (120, 360)
  | .low => (720, 1440)
  | .minimal => (1440, 4320)

/-- `schedule_config['factor_weights']`. -/
def factor_weights : List (String × ℚ) :=
  [("activity_level", 1/4), ("change_rate", 1/5), ("urgency_score", 1/5),
   ("error_rate", -(3/20)), ("response_time", -(1/10)), ("system_load", -(1/10))]

/-- The body of the `try:` block of
`IntelligentScheduler.calculate_adaptive_frequency`.
`now` is `datetime.now()` in integer minutes and `current_hour` is
`datetime.now().hour`.  The construction of `pattern_multipliers`
references `ActivityPattern.CRITICAL`, a member that does not exist, so
the attribute lookup is modelled by `ActivityPattern.member "CRITICAL"`
and raises (`Except.error`) when it yields `none`. -/
def calculate_adaptive_frequency_body (now : ℤ) (current_hour : ℕ)
    (m : SourceMetrics) : Except String ScheduleRecommendation := do
  let factors : List (String × ℚ) :=
    [("activity_level", min (m.avg_records_per_hour / 100) 1),
     ("change_rate", min (m.change_rate * 10) 1),
     ("urgency_score", m.urgency_score),
     ("error_rate", min (m.error_rate * 10) 1),
     ("response_time", min (m.response_time_avg / 1000) 1),
     ("system_load", 3/10)]
  let weighted_score : ℚ :=
    factors.foldl (fun acc p => acc + p.2 * ((factor_weights.lookup p.1).getD 0)) 0
  let criticalMember ← match ActivityPattern.member "CRITICAL" with
    | some p => Except.ok p
    | Option.none => Except.error "AttributeError: CRITICAL"
  let pattern_multipliers : List (ActivityPattern × ℚ) :=
    [(criticalMember, 3/2), (.burst, 13/10), (.steady, 1),
     (.periodic, 9/10), (.sporadic, 7/10), (.dormant, 1/2)]
  let pattern_multiplier : ℚ := (pattern_multipliers.lookup m.activity_pattern).getD 1
  let final_score := weighted_score * pattern_multiplier
  let frequency : UpdateFrequency :=
    if final_score ≥ 4/5 then .critical
    else if final_score ≥ 3/5 then .high
    else if final_score ≥ 2/5 then .normal
    else if final_score ≥ 1/5 then .low
    else .minimal
  let min_interval := (frequency_intervals frequency).1
  let max_interval := (frequency_intervals frequency).2
  let interval_multiplier : ℚ := if current_hour ∈ m.peak_hours then 7/10 else 1
  let target_interval := min_interval + (max_interval - min_interval) * (1 - final_score)
  let final_interval : ℤ := Py.pyTrunc (target_interval * interval_multiplier)
  let next_update := now + final_interval
  let reason_parts : List String :=
    (if (factors.lookup "activity_level").getD 0 > 7/10 then ["high activity"] else []) ++
    (if (factors.lookup "change_rate").getD 0 > 1/2 then ["significant changes"] else []) ++
    (if (factors.lookup "urgency_score").getD 0 > 7/10 then ["urgent cases detected"] else []) ++
    (if (factors.lookup "error_rate").getD 0 > 3/10 then ["elevated error rate"] else [])
  let reason_parts := if reason_parts = [] then ["standard monitoring"] else reason_parts
  let reason := "Adaptive scheduling based on: " ++ String.intercalate ", " reason_parts
  return { source_name := m.source_name
           update_frequency := frequency
           interval_minutes := final_interval
           next_update_time := next_update
           reason := reason
           confidence := min (final_score + 1/5) 1
           adaptive_factors := factors }

/-- The `except Exception:` branch of `calculate_adaptive_frequency`:
the safe default recommendation (normal tier, 4 hours). -/
def default_recommendation (now : ℤ) (m : SourceMetrics) : ScheduleRecommendation :=
  { source_name := m.source_name
    update_frequency := .normal
    interval_minutes := 240
    next_update_time := now + 240
    reason := "Default schedule due to analysis error"
    confidence := 1/2
    adaptive_factors := [("error", 1)] }

/-- `IntelligentScheduler.calculate_adaptive_frequency`: run the body;
any raised exception is caught and replaced by the safe default. -/
def calculate_adaptive_frequency (now : ℤ) (current_hour : ℕ)
    (m : SourceMetrics) : ScheduleRecommendation :=
  match calculate_adaptive_frequency_body now current_hour m with
  | .ok r => r
  | .error _ => default_recommendation now m

end Sched

namespace Inc

open Py

/-- The `SyncOperation` enumeration of `incremental_updater.py`. -/
inductive SyncOp
  | insert
  | update
  | delete
  | skip
deriving DecidableEq, Repr

/-- The `.value` string of each `SyncOperation` member. -/
def SyncOp.value : SyncOp → String
  | .insert => "insert"
  | .update => "update"
  | .delete => "delete"
  | .skip => "skip"

/-- The `SyncRecord` dataclass. -/
structure SyncRecord where
  case_id : String
  operation : SyncOp
  source_data : Option Record
  existing_data : Option Record
  confidence : ℚ
  priority : ℕ
  sync_reason : String
deriving DecidableEq, Repr

/-- The bookkeeping keys excluded by `calculate_data_hash`. -/
def excluded_hash_keys : List String := ["id", "created_at", "updated_at", "last_sync"]

/-- The per-value normalization inside `calculate_data_hash`:
`str(v).strip().lower()` for strings, other values unchanged. -/
def normalize_hash_value : Value → Value
  | .str s => .str (lowerStr (stripStr s))
  | v => v

/-- `IncrementalUpdater.calculate_data_hash`.  The SHA-256 digest of the
key-sorted JSON encoding of the normalized projection is modelled by the
key-sorted normalized projection itself: two records have equal digests
exactly when these canonical forms are equal (the hash is treated as
collision-free). -/
def calculate_data_hash (r : Record) : List (String × Value) :=
  sortByKey ((r.filter (fun kv =>
    kv.2 != Value.none && !(excluded_hash_keys.contains kv.1))).map
    (fun kv => (kv.1, normalize_hash_value kv.2)))

/-- `str(record.get('status', '')).lower()` as used by
`calculate_update_priority`. -/
def statusOf (r : Record) : String := lowerStr (pyStr (pyGetD r "status" (.str "")))

/-- The contact fields checked by `calculate_update_priority`. -/
def contact_fields : List String := ["phone", "email", "contact_info"]

/-- The location fields checked by `calculate_update_priority`. -/
def location_fields : List String := ["city", "state", "latitude", "longitude"]

/-- `IncrementalUpdater.calculate_update_priority` (1 = highest,
5 = lowest; this function returns 1–4). -/
def calculate_update_priority (src ex : Record) : ℕ :=
  let ss := statusOf src
  let es := statusOf ex
  if ss != es && (strContain ss "found" || strContain ss "deceased") then 1
  else if ss != es && strContain ss "active" then 2
  else if contact_fields.any (fun f => pyGet src f != pyGet ex f) then 2
  else if location_fields.any (fun f => pyGet src f != pyGet ex f) then 3
  else 4

/-- `record.get('updated_at', record.get('last_modified'))`. -/
def updatedField (r : Record) : Value := pyGetD r "updated_at" (pyGet r "last_modified")

/-- The identity fields checked by `calculate_update_confidence`. -/
def identity_fields : List String := ["name", "age", "gender"]

/-- `IncrementalUpdater.calculate_update_confidence`: base 0.8, +0.15
when the source timestamp parses and is strictly newer, plus up to +0.1
for matching identity fields, capped at 1. -/
def calculate_update_confidence (src ex : Record) : ℚ :=
  let su := updatedField src
  let eu := updatedField ex
  let timestampBoost : ℚ :=
    if truthy su && truthy eu then
      match pyFromIso (pyStr su), pyFromIso (pyStr eu) with
      | some st, some et => if st > et then 3/20 else 0
      | _, _ => 0
    else 0
  let matchCount := (identity_fields.filter (fun f => pyGet src f == pyGet ex f)).length
  min (4/5 + timestampBoost + (matchCount : ℚ) / (identity_fields.length : ℚ) * (1/10)) 1

/-- `IncrementalUpdater.describe_changes`. -/
def describe_changes (src ex : Record) : String :=
  let changes := (src.filter (fun kv =>
      kv.2 != pyGet ex kv.1 && !(["updated_at", "last_modified"].contains kv.1))).map
    (fun kv => kv.1 ++ ": '" ++ pyStr (pyGet ex kv.1) ++ "' → '" ++ pyStr kv.2 ++ "'")
  if changes ≠ [] then
    "Updated fields: " ++ String.intercalate ", " (changes.take 3) ++
      (if changes.length > 3 then "..." else "")
  else "Record updated with new information"

/-- `str(source_record.get('id', source_record.get('case_number', 'unknown')))`. -/
def caseIdOf (src : Record) : String :=
  pyStr (pyGetD src "id" (pyGetD src "case_number" (.str "unknown")))

/-- `IncrementalUpdater.analyze_record_changes`. -/
def analyze_record_changes (src : Record) (ex : Option Record) : SyncRecord :=
  let case_id := caseIdOf src
  match ex with
  | Option.none =>
    { case_id := case_id, operation := .insert, source_data := some src,
      existing_data := Option.none, confidence := 1, priority := 2,
      sync_reason := "New missing person case" }
  | some e =>
    if calculate_data_hash src = calculate_data_hash e then
      { case_id := case_id, operation := .skip, source_data := some src,
        existing_data := some e, confidence := 1, priority := 5,
        sync_reason := "No changes detected" }
    else
      { case_id := case_id, operation := .update, source_data := some src,
        existing_data := some e, confidence := calculate_update_confidence src e,
        priority := calculate_update_priority src e,
        sync_reason := describe_changes src e }

/-- A row of the `sync_operations` table.  The AUTOINCREMENT id and the
`CURRENT_TIMESTAMP` creation time are both modelled by the insertion
sequence number (the table is append-only). -/
structure SyncOpRow where
  rowid : ℕ
  case_id : String
  operation : String
  source_hash : Option (List (String × Value))
  existing_hash : Option (List (String × Value))
  confidence : ℚ
  priority : ℕ
  sync_reason : String
  created_at : ℕ
  processed_at : Option ℕ
  error_message : Option String
deriving DecidableEq, Repr

/-- `IncrementalUpdater.queue_sync_operation`: a plain `INSERT INTO
sync_operations`, with no check against already-pending rows for the
same case id. -/
def queue_sync_operation (q : List SyncOpRow) (sr : SyncRecord) : List SyncOpRow :=
  q ++ [{ rowid := q.length + 1
          case_id := sr.case_id
          operation := sr.operation.value
          source_hash := sr.source_data.map calculate_data_hash
          existing_hash := sr.existing_data.map calculate_data_hash
          confidence := sr.confidence
          priority := sr.priority
          sync_reason := sr.sync_reason
          created_at := q.length + 1
          processed_at := Option.none
          error_message := Option.none }]

/-- The number of unprocessed (pending) queued operations for a case id. -/
def pendingCount (q : List SyncOpRow) (cid : String) : ℕ :=
  (q.filter (fun row => row.case_id == cid && row.processed_at.isNone)).length

/-- The result dict returned by `execute_sync_operation`. -/
structure ExecResult where
  success : Bool
  message : Option String
  error : Option String
deriving DecidableEq, Repr

/-- The persistent missing-persons store (the main database table),
keyed by case id. -/
abbrev Store := List (String × Record)

/-- `IncrementalUpdater.execute_sync_operation`.  The insert and update
branches are placeholders in the source ("would need source data
reconstruction"): they return a success message and issue no statement
on the store cursor, so the store is returned unchanged in every branch. -/
def execute_sync_operation (op : SyncOpRow) (store : Store) : ExecResult × Store :=
  if op.operation = "insert" then
    ({ success := true, message := some ("Would insert case " ++ op.case_id),
       error := Option.none }, store)
  else if op.operation = "update" then
    ({ success := true, message := some ("Would update case " ++ op.case_id),
       error := Option.none }, store)
  else if op.operation = "skip" then
    ({ success := true, message := some ("Skipped case " ++ op.case_id ++ " - no changes"),
       error := Option.none }, store)
  else
    ({ success := false, message := Option.none,
       error := some ("Unknown operation type: " ++ op.operation) }, store)

/-- `sync_config['priority_threshold']`. -/
def priority_threshold : ℕ := 3

/-- `sync_config['min_confidence_threshold']`. -/
def min_confidence_threshold : ℚ := 7/10

/-- `sync_config['batch_size']`. -/
def batch_size : ℕ := 500

/-- The `WHERE` clause of `process_sync_queue`'s selection query. -/
def pendingSelect (row : SyncOpRow) : Bool :=
  row.processed_at.isNone && decide (row.priority ≤ priority_threshold) &&
    decide (row.confidence ≥ min_confidence_threshold)

/-- `ORDER BY priority ASC, created_at ASC`. -/
def opLe (a b : SyncOpRow) : Bool :=
  decide (a.priority < b.priority) ||
    (a.priority == b.priority && decide (a.created_at ≤ b.created_at))

/-- Stable insertion for `sortOps`. -/
def insertOp (x : SyncOpRow) : List SyncOpRow → List SyncOpRow
  | [] => [x]
  | y :: ys => if opLe y x then y :: insertOp x ys else x :: y :: ys

/-- Stable sort of the selected operations by (priority, created_at). -/
def sortOps : List SyncOpRow → List SyncOpRow
  | [] => []
  | x :: xs => insertOp x (sortOps xs)

/-- `IncrementalUpdater.mark_operation_processed`: set `processed_at`
and the result columns on the row with the given id.  The JSON-encoded
result column is modelled by the structured `ExecResult`. -/
def mark_operation_processed (q : List SyncOpRow) (opid : ℕ) (now : ℕ)
    (res : ExecResult) : List SyncOpRow :=
  q.map (fun row =>
    if row.rowid = opid then
      { row with processed_at := some now, error_message := res.error }
    else row)

/-- The statistics dict built by `process_sync_queue`. -/
structure SyncStats where
  operations_processed : ℕ
  records_inserted : ℕ
  records_updated : ℕ
  records_skipped : ℕ
  errors : ℕ
deriving DecidableEq, Repr

/-- The shared mutable state `process_sync_queue` operates on: the
`sync_operations` queue and the missing-persons store. -/
structure SyncState where
  queue : List SyncOpRow
  store : Store
deriving DecidableEq, Repr

/-- The body of `process_sync_queue`'s per-operation loop: execute the
operation, update the statistics, and mark the operation processed. -/
def process_step (now : ℕ) (acc : SyncState × SyncStats) (op : SyncOpRow) :
    SyncState × SyncStats :=
  let res := execute_sync_operation op acc.1.store
  let stats := acc.2
  let stats :=
    if res.1.success then
      if op.operation = "insert" then
        { stats with records_inserted := stats.records_inserted + 1 }
      else if op.operation = "update" then
        { stats with records_updated := stats.records_updated + 1 }
      else
        { stats with records_skipped := stats.records_skipped + 1 }
    else { stats with errors := stats.errors + 1 }
  ({ queue := mark_operation_processed acc.1.queue op.rowid now res.1,
     store := res.2 },
   { stats with operations_processed := stats.operations_processed + 1 })

/-- `IncrementalUpdater.process_sync_queue`: select pending operations
with priority and confidence within the thresholds, order them by
(priority, created_at), take up to `batch_size`, execute each, and mark
each processed. -/
def process_sync_queue (now : ℕ) (st : SyncState) : SyncState × SyncStats :=
  ((sortOps (st.queue.filter pendingSelect)).take batch_size).foldl
    (process_step now)
    (st, { operations_processed := 0, records_inserted := 0, records_updated := 0,
           records_skipped := 0, errors := 0 })

/-- A queued-but-unprocessed insert operation for case 123, used as the
concrete failing input of the store-application claim. -/
def example_insert_row : SyncOpRow :=
  { rowid := 1, case_id := "123", operation := "insert",
    source_hash := Option.none, existing_hash := Option.none,
    confidence := 1, priority := 2, sync_reason := "New missing person case",
    created_at := 1, processed_at := Option.none, error_message := Option.none }

/-- A sync record for case X, used to exercise the queueing of two
operations for the same case. -/
def example_sync_record : SyncRecord :=
  { case_id := "X", operation := .update, source_data := Option.none,
    existing_data := Option.none, confidence := 1, priority := 2,
    sync_reason := "Updated fields" }

end Inc

namespace Valid

open Py

/-- A validation rule of `validation.py`: a name, a weight and a
`validate` method returning (pass?, message).  A method that raises is
modelled by `Except.error`. -/
structure VRule where
  name : String
  weight : ℚ
  validate : Record → Except String (Bool × String)

/-- The abstract base class `ValidationRule`: its `validate` method
raises `NotImplementedError` unconditionally. -/
def validation_rule_base (name : String) (weight : ℚ) : VRule :=
  { name := name, weight := weight, validate := fun _ => Except.error "NotImplementedError" }

/-- The validation-result dict built by `DataValidator.validate_record`. -/
structure ValidationResult where
  is_valid : Bool
  errors : List String
  warnings : List String
  quality_score : ℚ
  field_scores : List (String × ℚ)
  completeness_score : ℚ
  field_completeness : List (String × Bool)
deriving Repr

/-- The important-fields checklist of `_assess_data_completeness`. -/
def important_fields : List String :=
  ["name", "age", "gender", "ethnicity", "city", "state",
   "date_missing", "latitude", "longitude", "description"]

/-- `value is not None and str(value).strip() != ""`. -/
def fieldComplete (r : Record) (f : String) : Bool :=
  let v := pyGet r f
  v != Value.none && stripStr (pyStr v) != ""

/-- `DataValidator._assess_data_completeness`: the completeness
percentage and the per-field completeness map. -/
def assess_data_completeness (r : Record) : ℚ × List (String × Bool) :=
  let fc := important_fields.map (fun f => (f, fieldComplete r f))
  (((fc.filter (fun p => p.2)).length : ℚ) / (important_fields.length : ℚ) * 100, fc)

/-- The accumulator of `validate_record`'s rule loop. -/
structure RuleAcc where
  is_valid : Bool
  errors : List String
  field_scores : List (String × ℚ)
  total_weight : ℚ
  achieved_weight : ℚ

/-- One iteration of `validate_record`'s rule loop: call the rule's
`validate` (whose exception, if any, propagates) and fold its verdict
into the accumulator. -/
def rule_step (r : Record) (acc : RuleAcc) (rule : VRule) : Except String RuleAcc := do
  let res ← rule.validate r
  let acc := { acc with total_weight := acc.total_weight + rule.weight }
  if res.1 then
    pure { acc with achieved_weight := acc.achieved_weight + rule.weight,
                    field_scores := acc.field_scores ++ [(rule.name, 1)] }
  else
    pure { acc with is_valid := false,
                    errors := acc.errors ++ [rule.name ++ ": " ++ res.2],
                    field_scores := acc.field_scores ++ [(rule.name, 0)] }

/-- `DataValidator.validate_record`: apply every rule in order (there is
no exception handler around `rule.validate`, so a raising rule aborts
the whole call), then compute the quality score and completeness. -/
def validate_record (rules : List VRule) (r : Record) :
    Except String ValidationResult := do
  let acc ← rules.foldlM (rule_step r)
    { is_valid := true, errors := [], field_scores := [],
      total_weight := 0, achieved_weight := 0 }
  let comp := assess_data_completeness r
  return { is_valid := acc.is_valid
           errors := acc.errors
           warnings := []
           quality_score := if acc.total_weight > 0 then acc.achieved_weight / acc.total_weight else 0
           field_scores := acc.field_scores
           completeness_score := comp.1
           field_completeness := comp.2 }

/-- The string fields normalized by `clean_record`. -/
def string_clean_fields : List String :=
  ["name", "city", "county", "state", "gender", "ethnicity", "description"]

/-- Replace the value stored under an existing key. -/
def setKey (r : Record) (k : String) (v : Value) : Record :=
  r.map (fun kv => if kv.1 == k then (k, v) else kv)

/-- `field in cleaned and cleaned[field]` (presence plus truthiness). -/
def presentTruthy (r : Record) (k : String) : Bool :=
  (r.lookup k).isSome && truthy (pyGet r k)

/-- `DataValidator.clean_record`: title-case the string fields,
upper-case state and case number, coerce age to int and coordinates to
float (setting them to `None` when coercion fails). -/
def clean_record (r : Record) : Record :=
  let r := string_clean_fields.foldl
    (fun r f =>
      if presentTruthy r f then setKey r f (.str (pyTitle (stripStr (pyStr (pyGet r f))))) else r) r
  let r := if presentTruthy r "state" then
      setKey r "state" (.str (upperStr (stripStr (pyStr (pyGet r "state"))))) else r
  let r := if presentTruthy r "case_number" then
      setKey r "case_number" (.str (upperStr (stripStr (pyStr (pyGet r "case_number"))))) else r
  let r := if presentTruthy r "age" then
      setKey r "age" ((pyInt (pyGet r "age")).elim Value.none Value.intv) else r
  let r := ["latitude", "longitude"].foldl
    (fun r f =>
      if presentTruthy r f then setKey r f ((pyFloat (pyGet r f)).elim Value.none Value.ratv)
      else r) r
  r

/-- One entry of `batch_validate`'s result list. -/
structure BatchItem where
  result : ValidationResult
  record : Record
  original_index : ℕ

/-- One iteration of `batch_validate`'s loop: clean the record, validate
it (a raising rule propagates), and append the result. -/
def batch_step (rules : List VRule) (acc : List BatchItem) (p : ℕ × Record) :
    Except String (List BatchItem) := do
  let cleaned := clean_record p.2
  let vr ← validate_record rules cleaned
  pure (acc ++ [{ result := vr, record := cleaned, original_index := p.1 }])

/-- `DataValidator.batch_validate`: clean then validate each record in
order; a raising rule propagates and aborts the whole batch. -/
def batch_validate (rules : List VRule) (records : List Record) :
    Except String (List BatchItem) :=
  records.enum.foldlM (batch_step rules) []

/-- Length of the longest common prefix of two character lists. -/
def commonLen : List Char → List Char → ℕ
  | a :: as, b :: bs => if a == b then commonLen as bs + 1 else 0
  | _, _ => 0

/-- `difflib.SequenceMatcher.find_longest_match` over whole sequences
(no junk: the strings compared here are far below the 200-character
autojunk limit): the longest block `(i, j, k)` with
`a[i:i+k] = b[j:j+k]`, preferring the earliest `i`, then the earliest
`j`. -/
def longestMatch (a b : List Char) : ℕ × ℕ × ℕ :=
  (List.range a.length).foldl
    (fun best i =>
      (List.range b.length).foldl
        (fun best j =>
          let k := commonLen (a.drop i) (b.drop j)
          if k > best.2.2 then (i, j, k) else best)
        best)
    (0, 0, 0)

/-- `difflib.SequenceMatcher.get_matching_blocks` (block sizes only):
recursively take the longest match and recurse on both sides.  The fuel
argument bounds the recursion depth; `a.length + 1` always suffices
because each recursive call strictly shrinks the first sequence. -/
def matchSizes : ℕ → List Char → List Char → List ℕ
  | 0, _, _ => []
  | fuel + 1, a, b =>
    let t := longestMatch a b
    if t.2.2 = 0 then []
    else
      matchSizes fuel (a.take t.1) (b.take t.2.1) ++ [t.2.2] ++
        matchSizes fuel (a.drop (t.1 + t.2.2)) (b.drop (t.2.1 + t.2.2))

/-- `difflib.SequenceMatcher(None, a, b).ratio()`: twice the total
matched length over the total length. -/
def matcherScore (a b : String) : ℚ :=
  2 * ((matchSizes (a.data.length + 1) a.data b.data).sum : ℚ) /
    ((a.data.length + b.data.length : ℕ) : ℚ)

/-- `str(record.get(field, "")).lower().strip()`. -/
def fieldValNorm (r : Record) (f : String) : String :=
  stripStr (lowerStr (pyStr (pyGetD r f (.str ""))))

/-- `deduplication_config['match_fields']`. -/
def match_fields : List String := ["name", "location", "case_number"]

/-- `deduplication_config['similarity_threshold']`. -/
def similarity_threshold : ℚ := 17/20

/-- `DataValidator._calculate_similarity`: the average over the
configured fields of the per-field similarity (1 when both values are
empty, 0 when exactly one is empty, the sequence-matcher score
otherwise). -/
def calculate_similarity (r1 r2 : Record) (fields : List String) : ℚ :=
  let sims := fields.map (fun f =>
    let v1 := fieldValNorm r1 f
    let v2 := fieldValNorm r2 f
    if v1 = "" || v2 = "" then (if v1 = v2 then (1 : ℚ) else 0)
    else matcherScore v1 v2)
  if sims.length = 0 then 0 else sims.sum / (sims.length : ℚ)

/-- `DataValidator.detect_duplicates`: greedy clustering.  Each
unprocessed index `i` seeds a group; every later unprocessed index whose
similarity TO THE SEED reaches the threshold joins it and is marked
processed; groups of size > 1 are reported. -/
def detect_duplicates (records : List Record) : List (List ℕ) :=
  let n := records.length
  ((List.range n).foldl
    (fun (acc : List (List ℕ) × List ℕ) i =>
      if acc.2.contains i then acc
      else
        let inner := (List.range' (i + 1) (n - (i + 1))).foldl
          (fun (cg : List ℕ × List ℕ) j =>
            if cg.2.contains j then cg
            else if calculate_similarity (records.getD i []) (records.getD j [])
                match_fields ≥ similarity_threshold then
              (cg.1 ++ [j], cg.2 ++ [j])
            else cg)
          ([i], acc.2)
        ((if inner.1.length > 1 then acc.1 ++ [inner.1] else acc.1), inner.2 ++ [i]))
    ([], [])).1

/-- First record of the duplicate-transitivity experiment. -/
def dup_r0 : Record :=
  [("name", .str "aaaaaaa"), ("location", .str "x"), ("case_number", .str "x")]

/-- Second record of the duplicate-transitivity experiment: similar to
both neighbours. -/
def dup_r1 : Record :=
  [("name", .str "aaaa"), ("location", .str "x"), ("case_number", .str "x")]

/-- Third record of the duplicate-transitivity experiment: similar to
the second but not to the first. -/
def dup_r2 : Record :=
  [("name", .str "aa"), ("location", .str "x"), ("case_number", .str "x")]

end Valid

namespace Mon

/-- A row of the `alerts` table of `monitoring_alerting.py`.  Enum
columns are stored as their `.value` strings; `created_at` is an
integer timestamp in minutes. -/
structure AlertRow where
  id : String
  alert_type : String
  severity : String
  title : String
  message : String
  source : String
  metric_values : List (String × ℚ)
  threshold_values : List (String × Option ℚ)
  status : String
  created_at : ℤ
deriving DecidableEq, Repr

/-- The `Alert` dataclass as passed to `create_alert`; `status`
defaults to active. -/
structure Alert where
  id : String
  alert_type : String
  severity : String
  title : String
  message : String
  source : String
  metric_values : List (String × ℚ)
  threshold_values : List (String × Option ℚ)
  created_at : ℤ
  status : String := "active"
deriving DecidableEq, Repr

/-- `monitoring_config['alert_cooldown_minutes']`. -/
def alert_cooldown_minutes : ℤ := 30

/-- `monitoring_config['max_alerts_per_hour']`. -/
def max_alerts_per_hour : ℕ := 10

/-- `MonitoringAlertingSystem.is_duplicate_alert`: a positive count of
alerts with the same type and source, status active or acknowledged,
created within the cooldown window before `now`. -/
def is_duplicate_alert (rows : List AlertRow) (now : ℤ) (a : Alert) : Bool :=
  decide (0 < (rows.filter (fun r =>
    r.alert_type == a.alert_type && r.source == a.source &&
    (r.status == "active" || r.status == "acknowledged") &&
    decide (r.created_at ≥ now - alert_cooldown_minutes))).length)

/-- `MonitoringAlertingSystem.is_rate_limited`: at least
`max_alerts_per_hour` alerts created within the last hour. -/
def is_rate_limited (rows : List AlertRow) (now : ℤ) : Bool :=
  decide (max_alerts_per_hour ≤ (rows.filter (fun r => decide (r.created_at ≥ now - 60))).length)

/-- The row inserted by `create_alert` for an alert. -/
def Alert.row (a : Alert) : AlertRow :=
  { id := a.id, alert_type := a.alert_type, severity := a.severity,
    title := a.title, message := a.message, source := a.source,
    metric_values := a.metric_values, threshold_values := a.threshold_values,
    status := a.status, created_at := a.created_at }

/-- `MonitoringAlertingSystem.create_alert`: suppressed (nothing
persisted, `False` returned) when a duplicate exists or the rate limit
is hit; otherwise the alert row is inserted and `True` returned. -/
def create_alert (rows : List AlertRow) (now : ℤ) (a : Alert) : Bool × List AlertRow :=
  if is_duplicate_alert rows now a then (false, rows)
  else if is_rate_limited rows now then (false, rows)
  else (true, rows ++ [a.row])

/-- One call to `create_alert` as issued by the monitoring call sites:
the alert is built with `created_at = datetime.now()` (the call time)
and the default active status. -/
structure CreateCall where
  time : ℤ
  id : String
  alert_type : String
  severity : String
  title : String
  message : String
  source : String
  metric_values : List (String × ℚ)
  threshold_values : List (String × Option ℚ)
deriving DecidableEq, Repr

/-- The alert a call site passes to `create_alert`. -/
def CreateCall.alert (c : CreateCall) : Alert :=
  { id := c.id, alert_type := c.alert_type, severity := c.severity,
    title := c.title, message := c.message, source := c.source,
    metric_values := c.metric_values, threshold_values := c.threshold_values,
    created_at := c.time }

/-- Run a sequence of `create_alert` calls against the alerts table. -/
def runCreateAlerts (calls : List CreateCall) (rows : List AlertRow) : List AlertRow :=
  calls.foldl (fun rows c => (create_alert rows c.time c.alert).2) rows

/-- The `MonitoringMetric` dataclass (the `last_updated` timestamp is
irrelevant to the health computation and omitted). -/
structure MonMetric where
  name : String
  current_value : ℚ
  threshold_critical : Option ℚ
  threshold_warning : Option ℚ
  unit : String
  description : String
deriving DecidableEq, Repr

/-- Python truthiness of an optional float threshold: `None` and `0.0`
are both falsy. -/
def optTruthy : Option ℚ → Bool
  | some q => q != 0
  | Option.none => false

/-- The health-factor loop of
`MonitoringAlertingSystem.take_health_snapshot`: a metric contributes a
factor only when `if metric.threshold_critical:` is truthy; the factor
is 0 at/above critical, 0.5 when the warning threshold is truthy and
the value is at/above it, and 1 otherwise. -/
def health_factors (ms : List MonMetric) : List ℚ :=
  ms.filterMap (fun m =>
    if optTruthy m.threshold_critical then
      some (if m.current_value ≥ m.threshold_critical.getD 0 then 0
            else if optTruthy m.threshold_warning &&
                decide (m.current_value ≥ m.threshold_warning.getD 0) then 1/2
            else 1)
    else Option.none)

/-- The `overall_health_score` computed by `take_health_snapshot`:
the mean of the factors times 100, or 100 when no factor is available. -/
def overall_health_score (ms : List MonMetric) : ℚ :=
  let hf := health_factors ms
  if hf.length ≠ 0 then hf.sum / (hf.length : ℚ) * 100 else 100

/-- The health factors as claim C10 words them (written from the
claim, not from the source, for comparison with `health_factors`):
every metric that HAS a critical threshold (not `None`) is included,
with factor 0 at/above critical, 0.5 at/above the warning threshold but
below critical, and 1 below the warning threshold. -/
def claim_health_factors (ms : List MonMetric) : List ℚ :=
  ms.filterMap (fun m =>
    match m.threshold_critical with
    | some c =>
      some (if m.current_value ≥ c then 0
            else match m.threshold_warning with
              | some w => if m.current_value ≥ w then 1/2 else 1
              | Option.none => 1)
    | Option.none => Option.none)

/-- The overall health score as claim C10 words it. -/
def claim_overall_health (ms : List MonMetric) : ℚ :=
  let hf := claim_health_factors ms
  if hf.length ≠ 0 then hf.sum / (hf.length : ℚ) * 100 else 100

/-- The cooldown separation property between two alert rows (the
earlier row listed first): if the rows share an alert type and source
and both are active or acknowledged, their creation times are more than
the cooldown apart. -/
def cooldownSeparated (r1 r2 : AlertRow) : Prop :=
  r1.alert_type = r2.alert_type → r1.source = r2.source →
  (r1.status = "active" ∨ r1.status = "acknowledged") →
  (r2.status = "active" ∨ r2.status = "acknowledged") →
  alert_cooldown_minutes < r2.created_at - r1.created_at

/-- A metric whose critical threshold is present but equal to zero:
the concrete input separating the health-snapshot claim from the code. -/
def zero_critical_metric : MonMetric :=
  { name := "error_rate", current_value := 5, threshold_critical := some 0,
    threshold_warning := some 0, unit := "%", description := "recent errors" }

/-- The per-metric factor under the amended reading of C10: a metric is
included only when its critical threshold is present AND nonzero, and
the 0.5 band applies only when the warning threshold is present and
nonzero (written from the amended claim, for comparison with
`health_factors`). -/
def amended_factor (m : MonMetric) : Option ℚ :=
  match m.threshold_critical with
  | some c =>
    if c = 0 then Option.none
    else some (if m.current_value ≥ c then 0
      else match m.threshold_warning with
        | some w => if w ≠ 0 ∧ m.current_value ≥ w then 1/2 else 1
        | Option.none => 1)
  | Option.none => Option.none

end Mon

/-!
## Theorems

Helper lemmas first, then one theorem per claim (with witness or
counterexample theorems where required).
-/

set_option maxRecDepth 40000

/-- The try-block of `calculate_adaptive_frequency` always raises:
building `pattern_multipliers` looks up the nonexistent enumeration
member `ActivityPattern.CRITICAL`. -/
theorem sched_body_raises (now : ℤ) (hour : ℕ) (m : Sched.SourceMetrics) :
    Sched.calculate_adaptive_frequency_body now hour m =
      Except.error "AttributeError: CRITICAL" := rfl

/-- Consequently the scheduler always returns the handler's default. -/
theorem sched_eq_default (now : ℤ) (hour : ℕ) (m : Sched.SourceMetrics) :
    Sched.calculate_adaptive_frequency now hour m = Sched.default_recommendation now m := rfl

/-- C2: for every `SourceMetrics` input, `calculate_adaptive_frequency`
returns the fixed default recommendation (tier normal, 240 minutes,
confidence 0.5, reason "Default schedule due to analysis error"),
because the scoring body always raises on the nonexistent
`ActivityPattern.CRITICAL` member and the error handler's default is
returned; the scoring, tier-mapping and interpolation logic after that
reference is unreachable. -/
theorem claim_C2 (now : ℤ) (hour : ℕ) (m : Sched.SourceMetrics) :
    Sched.calculate_adaptive_frequency_body now hour m =
      Except.error "AttributeError: CRITICAL" ∧
    Sched.calculate_adaptive_frequency now hour m = Sched.default_recommendation now m ∧
    (Sched.calculate_adaptive_frequency now hour m).update_frequency =
      Sched.UpdateFrequency.normal ∧
    (Sched.calculate_adaptive_frequency now hour m).interval_minutes = 240 ∧
    (Sched.calculate_adaptive_frequency now hour m).confidence = 1/2 ∧
    (Sched.calculate_adaptive_frequency now hour m).reason =
      "Default schedule due to analysis error" :=
  ⟨rfl, rfl, rfl, rfl, rfl, rfl⟩

/-- C1: for every `SourceMetrics` input, the recommendation's
`interval_minutes` lies within the [min, max] range configured for the
frequency tier it carries. -/
theorem claim_C1 (now : ℤ) (hour : ℕ) (m : Sched.SourceMetrics) :
    (Sched.frequency_intervals
        (Sched.calculate_adaptive_frequency now hour m).update_frequency).1 ≤
      ((Sched.calculate_adaptive_frequency now hour m).interval_minutes : ℚ) ∧
    ((Sched.calculate_adaptive_frequency now hour m).interval_minutes : ℚ) ≤
      (Sched.frequency_intervals
        (Sched.calculate_adaptive_frequency now hour m).update_frequency).2 := by
  rw [sched_eq_default]
  constructor
  · norm_num [Sched.default_recommendation, Sched.frequency_intervals]
  · norm_num [Sched.default_recommendation, Sched.frequency_intervals]

/-- C4: `analyze_record_changes` with no existing record returns an
insert with priority 2 and confidence 1; with an existing record of
equal normalized content hash it returns a skip with priority 5 and
confidence 1. -/
theorem claim_C4 (src ex : Py.Record) :
    ((Inc.analyze_record_changes src Option.none).operation = Inc.SyncOp.insert ∧
     (Inc.analyze_record_changes src Option.none).priority = 2 ∧
     (Inc.analyze_record_changes src Option.none).confidence = 1) ∧
    (Inc.calculate_data_hash src = Inc.calculate_data_hash ex →
     (Inc.analyze_record_changes src (some ex)).operation = Inc.SyncOp.skip ∧
     (Inc.analyze_record_changes src (some ex)).priority = 5 ∧
     (Inc.analyze_record_changes src (some ex)).confidence = 1) := by
  refine ⟨⟨rfl, rfl, rfl⟩, fun h => ?_⟩
  simp [Inc.analyze_record_changes, if_pos h]

/-- Witness for C4: a record and an existing record whose normalized
contents coincide (case and surrounding whitespace differ) are
classified as a skip with priority 5 and confidence 1. -/
theorem claim_C4_witness :
    Inc.calculate_data_hash [("name", Py.Value.str " Alice ")] =
      Inc.calculate_data_hash [("name", Py.Value.str "alice")] ∧
    ((Inc.analyze_record_changes [("name", Py.Value.str " Alice ")]
        (some [("name", Py.Value.str "alice")])).operation = Inc.SyncOp.skip ∧
     (Inc.analyze_record_changes [("name", Py.Value.str " Alice ")]
        (some [("name", Py.Value.str "alice")])).priority = 5 ∧
     (Inc.analyze_record_changes [("name", Py.Value.str " Alice ")]
        (some [("name", Py.Value.str "alice")])).confidence = 1) :=
  ⟨by decide, (claim_C4 [("name", Py.Value.str " Alice ")]
      [("name", Py.Value.str "alice")]).2 (by decide)⟩

/-- Counterexample for C5: a status transition to "resolved" (statuses
differ, all other fields equal) is given priority 4 by
`calculate_update_priority`, not the priority 1 the claim assigns to a
transition to resolved: the code tests for the substrings "found" and
"deceased", which "resolved" does not contain. -/
theorem claim_C5_counterexample :
    Inc.calculate_update_priority
        [("status", Py.Value.str "resolved"), ("name", Py.Value.str "Ann")]
        [("status", Py.Value.str "missing"), ("name", Py.Value.str "Ann")] = 4 ∧
    Inc.calculate_update_priority
        [("status", Py.Value.str "resolved"), ("name", Py.Value.str "Ann")]
        [("status", Py.Value.str "missing"), ("name", Py.Value.str "Ann")] ≠ 1 := by
  decide

/-- C5 (amended): for every pair with differing content, update priority
follows the fixed precedence with the substring status tests the code
performs: a status change whose new (lower-cased) status contains
"found" or "deceased" yields priority 1; otherwise a status change
whose new status contains "active" yields priority 2; otherwise a
change in any contact field yields priority 2; otherwise a change in
any location/coordinate field yields priority 3; any other change
yields priority 4. -/
theorem claim_C5 (src ex : Py.Record) :
    ((Inc.statusOf src != Inc.statusOf ex) = true →
      (Py.strContain (Inc.statusOf src) "found" ||
        Py.strContain (Inc.statusOf src) "deceased") = true →
      Inc.calculate_update_priority src ex = 1) ∧
    ((Inc.statusOf src != Inc.statusOf ex) = true →
      (Py.strContain (Inc.statusOf src) "found" ||
        Py.strContain (Inc.statusOf src) "deceased") = false →
      Py.strContain (Inc.statusOf src) "active" = true →
      Inc.calculate_update_priority src ex = 2) ∧
    (((Inc.statusOf src != Inc.statusOf ex) = false ∨
        ((Py.strContain (Inc.statusOf src) "found" ||
          Py.strContain (Inc.statusOf src) "deceased") = false ∧
         Py.strContain (Inc.statusOf src) "active" = false)) →
      (Inc.contact_fields.any (fun f => Py.pyGet src f != Py.pyGet ex f)) = true →
      Inc.calculate_update_priority src ex = 2) ∧
    (((Inc.statusOf src != Inc.statusOf ex) = false ∨
        ((Py.strContain (Inc.statusOf src) "found" ||
          Py.strContain (Inc.statusOf src) "deceased") = false ∧
         Py.strContain (Inc.statusOf src) "active" = false)) →
      (Inc.contact_fields.any (fun f => Py.pyGet src f != Py.pyGet ex f)) = false →
      (Inc.location_fields.any (fun f => Py.pyGet src f != Py.pyGet ex f)) = true →
      Inc.calculate_update_priority src ex = 3) ∧
    (((Inc.statusOf src != Inc.statusOf ex) = false ∨
        ((Py.strContain (Inc.statusOf src) "found" ||
          Py.strContain (Inc.statusOf src) "deceased") = false ∧
         Py.strContain (Inc.statusOf src) "active" = false)) →
      (Inc.contact_fields.any (fun f => Py.pyGet src f != Py.pyGet ex f)) = false →
      (Inc.location_fields.any (fun f => Py.pyGet src f != Py.pyGet ex f)) = false →
      Inc.calculate_update_priority src ex = 4) := by
  unfold Inc.calculate_update_priority
  refine ⟨fun h1 h2 => ?_, fun h1 h2 h3 => ?_, fun h1 h2 => ?_,
    fun h1 h2 h3 => ?_, fun h1 h2 h3 => ?_⟩
  · simp [h1, h2]
  · simp [h1, h2, h3]
  · rcases h1 with h1 | ⟨h1a, h1b⟩
    · simp [h1, h2]
    · simp [h1a, h1b, h2]
  · rcases h1 with h1 | ⟨h1a, h1b⟩
    · simp [h1, h2, h3]
    · simp [h1a, h1b, h2, h3]
  · rcases h1 with h1 | ⟨h1a, h1b⟩
    · simp [h1, h2, h3]
    · simp [h1a, h1b, h2, h3]

/-- Witness for C5 (amended): a status transition from "missing" to
"found" with everything else equal gets priority 1. -/
theorem claim_C5_witness :
    (Inc.statusOf [("status", Py.Value.str "Found"), ("name", Py.Value.str "Ann")] !=
      Inc.statusOf [("status", Py.Value.str "missing"), ("name", Py.Value.str "Ann")]) = true ∧
    (Py.strContain (Inc.statusOf [("status", Py.Value.str "Found"),
        ("name", Py.Value.str "Ann")]) "found" ||
      Py.strContain (Inc.statusOf [("status", Py.Value.str "Found"),
        ("name", Py.Value.str "Ann")]) "deceased") = true ∧
    Inc.calculate_update_priority
      [("status", Py.Value.str "Found"), ("name", Py.Value.str "Ann")]
      [("status", Py.Value.str "missing"), ("name", Py.Value.str "Ann")] = 1 :=
  ⟨by decide, by decide,
    (claim_C5 [("status", Py.Value.str "Found"), ("name", Py.Value.str "Ann")]
      [("status", Py.Value.str "missing"), ("name", Py.Value.str "Ann")]).1
      (by decide) (by decide)⟩

/-- Counterexample for C6: queueing two operations for the same case id
while the first is still pending stores both rows — the pending
operations are not coalesced, so the "at most one pending operation per
case" invariant fails. -/
theorem claim_C6_counterexample :
    Inc.pendingCount
      (Inc.queue_sync_operation
        (Inc.queue_sync_operation [] Inc.example_sync_record)
        Inc.example_sync_record) "X" = 2 ∧
    ¬ Inc.pendingCount
      (Inc.queue_sync_operation
        (Inc.queue_sync_operation [] Inc.example_sync_record)
        Inc.example_sync_record) "X" ≤ 1 := by
  decide

/-- C6 (amended): `queue_sync_operation` appends unconditionally; a new
operation for a case that already has a pending operation is retained
alongside it (the pending count increments, so at least two pending
rows coexist), rather than coalescing; `process_sync_queue` orders by
(priority, created_at) so same-case operations are applied in creation
order. -/
theorem claim_C6 (q : List Inc.SyncOpRow) (sr : Inc.SyncRecord)
    (h : 1 ≤ Inc.pendingCount q sr.case_id) :
    Inc.pendingCount (Inc.queue_sync_operation q sr) sr.case_id =
      Inc.pendingCount q sr.case_id + 1 ∧
    2 ≤ Inc.pendingCount (Inc.queue_sync_operation q sr) sr.case_id := by
  have hstep : Inc.pendingCount (Inc.queue_sync_operation q sr) sr.case_id =
      Inc.pendingCount q sr.case_id + 1 := by
    simp [Inc.pendingCount, Inc.queue_sync_operation, List.filter_append]
  exact ⟨hstep, by omega⟩

/-- Witness for C6 (amended): with one pending operation for case X
already queued, queueing another yields two pending operations. -/
theorem claim_C6_witness :
    1 ≤ Inc.pendingCount (Inc.queue_sync_operation [] Inc.example_sync_record)
        Inc.example_sync_record.case_id ∧
    Inc.pendingCount
        (Inc.queue_sync_operation
          (Inc.queue_sync_operation [] Inc.example_sync_record)
          Inc.example_sync_record)
        Inc.example_sync_record.case_id =
      Inc.pendingCount (Inc.queue_sync_operation [] Inc.example_sync_record)
        Inc.example_sync_record.case_id + 1 ∧
    2 ≤ Inc.pendingCount
        (Inc.queue_sync_operation
          (Inc.queue_sync_operation [] Inc.example_sync_record)
          Inc.example_sync_record)
        Inc.example_sync_record.case_id :=
  ⟨by decide,
    (claim_C6 (Inc.queue_sync_operation [] Inc.example_sync_record)
      Inc.example_sync_record (by decide)).1,
    (claim_C6 (Inc.queue_sync_operation [] Inc.example_sync_record)
      Inc.example_sync_record (by decide)).2⟩

/-- Every branch of `execute_sync_operation` leaves the store untouched:
the insert and update branches are placeholders that only return a
message. -/
theorem execute_sync_operation_store (op : Inc.SyncOpRow) (store : Inc.Store) :
    (Inc.execute_sync_operation op store).2 = store := by
  unfold Inc.execute_sync_operation
  split_ifs <;> rfl

/-- One processing step never changes the store. -/
theorem process_step_store (now : ℕ) (acc : Inc.SyncState × Inc.SyncStats)
    (op : Inc.SyncOpRow) :
    ((Inc.process_step now acc op).1.store = acc.1.store) := by
  simp [Inc.process_step, execute_sync_operation_store]

/-- Folding processing steps never changes the store. -/
theorem foldl_process_step_store (now : ℕ) (ops : List Inc.SyncOpRow) :
    ∀ acc : Inc.SyncState × Inc.SyncStats,
      ((ops.foldl (Inc.process_step now) acc).1.store = acc.1.store) := by
  induction ops with
  | nil => intro acc; rfl
  | cons op rest ih =>
    intro acc
    rw [List.foldl_cons, ih (Inc.process_step now acc op), process_step_store]

/-- C3: processing the sync queue never applies anything to the
persistent missing-persons store — `execute_sync_operation`'s insert
and update branches are placeholders, so after any `process_sync_queue`
run the store is exactly what it was before.  In particular the
concrete pending insert for case 123 is counted as successfully
inserted while the (empty) store stays empty. -/
theorem claim_C3 :
    (∀ (now : ℕ) (st : Inc.SyncState),
      (Inc.process_sync_queue now st).1.store = st.store) ∧
    (Inc.process_sync_queue 5
      { queue := [Inc.example_insert_row], store := [] }).2.records_inserted = 1 ∧
    (Inc.process_sync_queue 5
      { queue := [Inc.example_insert_row], store := [] }).1.store = [] := by
  refine ⟨fun now st => ?_, by with_unfolding_all decide, by with_unfolding_all decide⟩
  unfold Inc.process_sync_queue
  exact foldl_process_step_store now _ _

/-- Counterexample for C7: a rule that raises (here the abstract base
rule, whose `validate` raises `NotImplementedError`) aborts
`validate_record` — and with it `batch_validate` — instead of being
scored as a failed rule; no result is produced. -/
theorem claim_C7_counterexample :
    Valid.validate_record [Valid.validation_rule_base "rule" 1] [] =
      Except.error "NotImplementedError" ∧
    Valid.batch_validate [Valid.validation_rule_base "rule" 1]
      [[("name", Py.Value.str "Ann")]] = Except.error "NotImplementedError" ∧
    ∀ res, Valid.validate_record [Valid.validation_rule_base "rule" 1] [] ≠
      Except.ok res := by
  refine ⟨rfl, rfl, fun res h => ?_⟩
  rw [show Valid.validate_record [Valid.validation_rule_base "rule" 1] [] =
    Except.error "NotImplementedError" from rfl] at h
  exact Except.noConfusion h

/-- A raising rule makes `rule_step` raise. -/
theorem rule_step_error (r : Py.Record) (acc : Valid.RuleAcc) (rule : Valid.VRule)
    (e : String) (hv : rule.validate r = Except.error e) :
    Valid.rule_step r acc rule = Except.error e := by
  simp [Valid.rule_step, hv, Bind.bind, Except.bind]

/-- A non-raising rule makes `rule_step` succeed. -/
theorem rule_step_ok (r : Py.Record) (acc : Valid.RuleAcc) (rule : Valid.VRule)
    (res : Bool × String) (hv : rule.validate r = Except.ok res) :
    ∃ acc2, Valid.rule_step r acc rule = Except.ok acc2 := by
  cases hres : res.1 <;>
    simp [Valid.rule_step, hv, Bind.bind, Except.bind, hres, pure, Except.pure]

/-- The rule loop of `validate_record` completes exactly when no rule
raises. -/
theorem foldlM_rule_isOk (r : Py.Record) (rules : List Valid.VRule) :
    ∀ acc : Valid.RuleAcc,
      ((rules.foldlM (Valid.rule_step r) acc).isOk = true ↔
        ∀ rule ∈ rules, (rule.validate r).isOk = true) := by
  induction rules with
  | nil =>
    intro acc
    simp [List.foldlM, pure, Except.pure, Except.isOk, Except.toBool]
  | cons rule rest ih =>
    intro acc
    rw [List.foldlM_cons]
    cases hv : rule.validate r with
    | error e =>
      rw [rule_step_error r acc rule e hv]
      simp [Bind.bind, Except.bind, Except.isOk, Except.toBool, hv]
    | ok res =>
      obtain ⟨acc2, hacc2⟩ := rule_step_ok r acc rule res hv
      rw [hacc2]
      simp only [Bind.bind, Except.bind]
      rw [ih acc2]
      simp [hv, Except.isOk, Except.toBool]

/-- `validate_record` completes exactly when its rule loop does. -/
theorem validate_record_isOk (rules : List Valid.VRule) (r : Py.Record) :
    (Valid.validate_record rules r).isOk =
      (rules.foldlM (Valid.rule_step r)
        { is_valid := true, errors := [], field_scores := [],
          total_weight := 0, achieved_weight := 0 }).isOk := by
  unfold Valid.validate_record
  cases rules.foldlM (Valid.rule_step r)
      ({ is_valid := true, errors := [], field_scores := [],
         total_weight := 0, achieved_weight := 0 } : Valid.RuleAcc) with
  | error e => rfl
  | ok acc => rfl

/-- The batch loop of `batch_validate` completes exactly when every
record's validation does. -/
theorem foldlM_batch_isOk (rules : List Valid.VRule) (l : List (ℕ × Py.Record)) :
    ∀ acc : List Valid.BatchItem,
      ((l.foldlM (Valid.batch_step rules) acc).isOk = true ↔
        ∀ p ∈ l, (Valid.validate_record rules (Valid.clean_record p.2)).isOk = true) := by
  induction l with
  | nil =>
    intro acc
    simp [List.foldlM, pure, Except.pure, Except.isOk, Except.toBool]
  | cons p rest ih =>
    intro acc
    rw [List.foldlM_cons]
    cases hv : Valid.validate_record rules (Valid.clean_record p.2) with
    | error e =>
      have hstep : Valid.batch_step rules acc p = Except.error e := by
        simp [Valid.batch_step, hv, Bind.bind, Except.bind]
      rw [hstep]
      simp [Bind.bind, Except.bind, Except.isOk, Except.toBool, hv]
    | ok vr =>
      have hstep : Valid.batch_step rules acc p =
          Except.ok (acc ++ [⟨vr, Valid.clean_record p.2, p.1⟩]) := by
        simp [Valid.batch_step, hv, Bind.bind, Except.bind, pure, Except.pure]
      rw [hstep]
      simp only [Bind.bind, Except.bind]
      rw [ih _]
      simp [hv, Except.isOk, Except.toBool]

/-- C7 (amended): `validate_record` has no exception handler around the
rules, so it completes exactly when no rule raises — a raising rule
aborts it (and `batch_validate` with it) rather than being logged and
scored as a failed rule; the built-in rules avoid this only by catching
malformed input internally and returning a failure verdict. -/
theorem claim_C7 (rules : List Valid.VRule) (r : Py.Record)
    (records : List Py.Record) :
    ((Valid.validate_record rules r).isOk = true ↔
      ∀ rule ∈ rules, (rule.validate r).isOk = true) ∧
    ((Valid.batch_validate rules records).isOk = true ↔
      ∀ rec ∈ records, (Valid.validate_record rules (Valid.clean_record rec)).isOk = true) := by
  constructor
  · rw [validate_record_isOk]
    exact foldlM_rule_isOk r rules _
  · unfold Valid.batch_validate
    rw [foldlM_batch_isOk rules records.enum []]
    constructor
    · intro h x hx
      have hmem : x ∈ records.enum.map Prod.snd := by
        rw [List.enum_map_snd]; exact hx
      obtain ⟨p, hp, hpx⟩ := List.mem_map.mp hmem
      exact hpx ▸ h p hp
    · intro h p hp
      apply h
      have hmem : p.2 ∈ records.enum.map Prod.snd := List.mem_map_of_mem _ hp
      rwa [List.enum_map_snd] at hmem

/-- Unfolding one call of `runCreateAlerts`. -/
theorem runCreateAlerts_cons (c : Mon.CreateCall) (cs : List Mon.CreateCall)
    (rows : List Mon.AlertRow) :
    Mon.runCreateAlerts (c :: cs) rows =
      Mon.runCreateAlerts cs (Mon.create_alert rows c.time c.alert).2 := rfl

/-- A suppressed `create_alert` leaves the table unchanged. -/
theorem create_alert_suppressed (rows : List Mon.AlertRow) (now : ℤ) (a : Mon.Alert)
    (h : Mon.is_duplicate_alert rows now a = true ∨ Mon.is_rate_limited rows now = true) :
    (Mon.create_alert rows now a).2 = rows := by
  rcases h with h | h
  · simp [Mon.create_alert, h]
  · by_cases hd : Mon.is_duplicate_alert rows now a = true
    · simp [Mon.create_alert, hd]
    · simp [Mon.create_alert, hd, h]

/-- A non-suppressed `create_alert` appends exactly the alert's row. -/
theorem create_alert_inserted (rows : List Mon.AlertRow) (now : ℤ) (a : Mon.Alert)
    (hd : Mon.is_duplicate_alert rows now a = false)
    (hr : Mon.is_rate_limited rows now = false) :
    (Mon.create_alert rows now a).2 = rows ++ [a.row] := by
  simp [Mon.create_alert, hd, hr]

/-- When no duplicate is reported, every row of the table with the same
type and source and an active/acknowledged status was created more than
the cooldown before `now`. -/
theorem no_duplicate_separation (rows : List Mon.AlertRow) (now : ℤ) (a : Mon.Alert)
    (hd : Mon.is_duplicate_alert rows now a = false) :
    ∀ r ∈ rows, r.alert_type = a.alert_type → r.source = a.source →
      (r.status = "active" ∨ r.status = "acknowledged") →
      r.created_at < now - Mon.alert_cooldown_minutes := by
  intro r hr hA hS hst
  have hlen : (rows.filter (fun r =>
      r.alert_type == a.alert_type && r.source == a.source &&
      (r.status == "active" || r.status == "acknowledged") &&
      decide (r.created_at ≥ now - Mon.alert_cooldown_minutes))).length = 0 := by
    by_contra hne
    have : Mon.is_duplicate_alert rows now a = true := by
      unfold Mon.is_duplicate_alert
      simp only [decide_eq_true_eq]
      omega
    simp [this] at hd
  have hnil := List.length_eq_zero.mp hlen
  have hpred := List.filter_eq_nil_iff.mp hnil r hr
  simp only [hA, hS, Bool.and_eq_true, beq_self_eq_true, Bool.or_eq_true,
    decide_eq_true_eq, beq_iff_eq, true_and, not_and, not_le] at hpred
  rcases hst with hst | hst
  · exact hpred (Or.inl hst)
  · exact hpred (Or.inr hst)

/-- Invariant carried through a sequence of `create_alert` calls with a
nondecreasing clock: the table stays pairwise cooldown-separated. -/
theorem runCreateAlerts_pairwise (calls : List Mon.CreateCall) :
    ∀ rows : List Mon.AlertRow,
      (∀ r ∈ rows, ∀ c ∈ calls, r.created_at ≤ c.time) →
      List.Pairwise Mon.cooldownSeparated rows →
      List.Pairwise (fun a b : Mon.CreateCall => a.time ≤ b.time) calls →
      List.Pairwise Mon.cooldownSeparated (Mon.runCreateAlerts calls rows) := by
  induction calls with
  | nil => intro rows _ hp _; exact hp
  | cons c cs ih =>
    intro rows hb hp hcalls
    rw [runCreateAlerts_cons]
    have hct : ∀ c' ∈ cs, c.time ≤ c'.time := (List.pairwise_cons.mp hcalls).1
    have hcs : List.Pairwise (fun a b : Mon.CreateCall => a.time ≤ b.time) cs :=
      (List.pairwise_cons.mp hcalls).2
    by_cases hd : Mon.is_duplicate_alert rows c.time c.alert = true
    · rw [create_alert_suppressed rows c.time c.alert (Or.inl hd)]
      exact ih rows (fun r hr c' hc' => hb r hr c' (List.mem_cons_of_mem c hc')) hp hcs
    · by_cases hr : Mon.is_rate_limited rows c.time = true
      · rw [create_alert_suppressed rows c.time c.alert (Or.inr hr)]
        exact ih rows (fun r hrr c' hc' => hb r hrr c' (List.mem_cons_of_mem c hc')) hp hcs
      · rw [create_alert_inserted rows c.time c.alert
          (Bool.not_eq_true _ ▸ hd) (Bool.not_eq_true _ ▸ hr)]
        apply ih
        · intro r hrr c' hc'
          rcases List.mem_append.mp hrr with hold | hnew
          · exact hb r hold c' (List.mem_cons_of_mem c hc')
          · have : r = c.alert.row := List.mem_singleton.mp hnew
            subst this
            exact hct c' hc'
        · rw [List.pairwise_append]
          refine ⟨hp, List.pairwise_singleton _ _, ?_⟩
          intro r hrr x hx
          have hx1 : x = c.alert.row := List.mem_singleton.mp hx
          subst hx1
          intro hA hS hst1 _
          have hsep := no_duplicate_separation rows c.time c.alert
            (Bool.not_eq_true _ ▸ hd) r hrr hA hS hst1
          have hrowt : (Mon.Alert.row c.alert).created_at = c.time := rfl
          rw [hrowt]
          omega
        · exact hcs

/-- C9: starting from an empty alerts table, any sequence of
`create_alert` calls issued with a nondecreasing clock never leaves two
alerts of the same (alert_type, source) that are both active (or
acknowledged) with creation times within the cooldown window: any such
pair is separated by strictly more than the cooldown, because the
second creation attempt inside the window is suppressed before
persisting anything. -/
theorem claim_C9 (calls : List Mon.CreateCall)
    (hmono : List.Pairwise (fun a b : Mon.CreateCall => a.time ≤ b.time) calls) :
    List.Pairwise Mon.cooldownSeparated (Mon.runCreateAlerts calls []) :=
  runCreateAlerts_pairwise calls [] (by intro r hr; cases hr) List.Pairwise.nil hmono

/-- Witness for C9: two identical alert conditions 10 minutes apart
(inside the 30-minute cooldown); the run keeps the table pairwise
cooldown-separated — concretely, only the first alert is persisted. -/
theorem claim_C9_witness :
    List.Pairwise (fun a b : Mon.CreateCall => a.time ≤ b.time)
      [⟨0, "a1", "data_staleness", "critical", "stale", "stale data", "csv", [], []⟩,
       ⟨10, "a2", "data_staleness", "critical", "stale", "stale data", "csv", [], []⟩] ∧
    List.Pairwise Mon.cooldownSeparated
      (Mon.runCreateAlerts
        [⟨0, "a1", "data_staleness", "critical", "stale", "stale data", "csv", [], []⟩,
         ⟨10, "a2", "data_staleness", "critical", "stale", "stale data", "csv", [], []⟩] []) :=
  ⟨by decide,
    claim_C9
      [⟨0, "a1", "data_staleness", "critical", "stale", "stale data", "csv", [], []⟩,
       ⟨10, "a2", "data_staleness", "critical", "stale", "stale data", "csv", [], []⟩]
      (by decide)⟩

/-- Counterexample for C10: a metric whose critical threshold is
present but equal to zero.  The claim includes it (value 5 ≥ critical 0,
factor 0, overall score 0); the code's truthiness test `if
metric.threshold_critical:` excludes it, leaving no factors and an
overall score of 100. -/
theorem claim_C10_counterexample :
    Mon.claim_health_factors [Mon.zero_critical_metric] = [0] ∧
    Mon.claim_overall_health [Mon.zero_critical_metric] = 0 ∧
    Mon.health_factors [Mon.zero_critical_metric] = [] ∧
    Mon.overall_health_score [Mon.zero_critical_metric] = 100 := by
  with_unfolding_all decide

/-- The health-factor rule of the snapshot code coincides pointwise with
the amended description (truthy thresholds instead of present ones). -/
theorem health_factor_pointwise (m : Mon.MonMetric) :
    (if Mon.optTruthy m.threshold_critical then
      some (if m.current_value ≥ m.threshold_critical.getD 0 then (0 : ℚ)
            else if Mon.optTruthy m.threshold_warning &&
                decide (m.current_value ≥ m.threshold_warning.getD 0) then 1/2
            else 1)
    else Option.none) = Mon.amended_factor m := by
  cases hc : m.threshold_critical with
  | none => simp [Mon.optTruthy, Mon.amended_factor, hc]
  | some c =>
    by_cases hc0 : c = 0
    · simp [Mon.optTruthy, Mon.amended_factor, hc, hc0]
    · cases hw : m.threshold_warning with
      | none => simp [Mon.optTruthy, Mon.amended_factor, hc, hc0, hw]
      | some w =>
        by_cases hv : m.current_value ≥ c
        · simp [Mon.optTruthy, Mon.amended_factor, hc, hc0, hw, hv]
        · by_cases hw0 : w = 0
          · simp [Mon.optTruthy, Mon.amended_factor, hc, hc0, hw, hv, hw0]
          · by_cases hvw : m.current_value ≥ w
            · simp [Mon.optTruthy, Mon.amended_factor, hc, hc0, hw, hv, hw0, hvw]
            · simp [Mon.optTruthy, Mon.amended_factor, hc, hc0, hw, hv, hw0, hvw]

/-- C10 (amended): the snapshot includes exactly the metrics whose
critical threshold is present AND nonzero (Python truthiness, not mere
presence); an included metric's factor is 0 at/above critical, 0.5 when
the warning threshold is present and nonzero and the value is at/above
it, and 1 otherwise; `overall_health_score` is the mean of the included
factors times 100, or 100 when none are included. -/
theorem claim_C10 (ms : List Mon.MonMetric) :
    Mon.health_factors ms = ms.filterMap Mon.amended_factor ∧
    Mon.overall_health_score ms =
      (if (ms.filterMap Mon.amended_factor).length ≠ 0 then
        (ms.filterMap Mon.amended_factor).sum /
          ((ms.filterMap Mon.amended_factor).length : ℚ) * 100
      else 100) := by
  have h1 : Mon.health_factors ms = ms.filterMap Mon.amended_factor := by
    unfold Mon.health_factors
    congr 1
    funext m
    exact health_factor_pointwise m
  refine ⟨h1, ?_⟩
  unfold Mon.overall_health_score
  rw [h1]

/-- Counterexample for C8: three records whose names are runs of `a` of
lengths 7, 4 and 2 (other matched fields identical).  Record 0 ~ record
1 (similarity 10/11) and record 1 ~ record 2 (similarity 8/9) both meet
the 0.85 threshold, yet `detect_duplicates` returns only the group
[0, 1]: record 2 is compared against the seed record 0 (similarity
22/27 < 0.85), never against record 1, so transitive clustering fails. -/
theorem claim_C8_counterexample :
    Valid.calculate_similarity Valid.dup_r0 Valid.dup_r1 Valid.match_fields ≥
      Valid.similarity_threshold ∧
    Valid.calculate_similarity Valid.dup_r1 Valid.dup_r2 Valid.match_fields ≥
      Valid.similarity_threshold ∧
    Valid.detect_duplicates [Valid.dup_r0, Valid.dup_r1, Valid.dup_r2] = [[0, 1]] := by
  with_unfolding_all decide

/-- C8 (amended): clustering is seed-based, not transitive.  In a
three-record batch, whenever records 1 and 2 each reach the similarity
threshold against the seed record 0, all three are placed in one group
(regardless of the similarity between records 1 and 2); transitivity
through a non-seed record does not hold, as the counterexample shows. -/
theorem claim_C8 (r0 r1 r2 : Py.Record)
    (h01 : Valid.calculate_similarity r0 r1 Valid.match_fields ≥
      Valid.similarity_threshold)
    (h02 : Valid.calculate_similarity r0 r2 Valid.match_fields ≥
      Valid.similarity_threshold) :
    Valid.detect_duplicates [r0, r1, r2] = [[0, 1, 2]] := by
  unfold Valid.detect_duplicates
  norm_num [List.range_succ, List.range'_eq_map_range, List.range_succ_eq_map]
  simp only [ge_iff_le] at h01 h02
  simp [h01, h02]

/-- Witness for C8 (amended): three identical records (pairwise
similarity 1) form a single group of all three. -/
theorem claim_C8_witness :
    Valid.calculate_similarity
        [("name", Py.Value.str "b"), ("location", Py.Value.str "c")]
        [("name", Py.Value.str "b"), ("location", Py.Value.str "c")]
        Valid.match_fields ≥ Valid.similarity_threshold ∧
    Valid.detect_duplicates
        [[("name", Py.Value.str "b"), ("location", Py.Value.str "c")],
         [("name", Py.Value.str "b"), ("location", Py.Value.str "c")],
         [("name", Py.Value.str "b"), ("location", Py.Value.str "c")]] = [[0, 1, 2]] :=
  ⟨by with_unfolding_all decide,
    claim_C8 [("name", Py.Value.str "b"), ("location", Py.Value.str "c")]
      [("name", Py.Value.str "b"), ("location", Py.Value.str "c")]
      [("name", Py.Value.str "b"), ("location", Py.Value.str "c")]
      (by with_unfolding_all decide) (by with_unfolding_all decide)⟩
